import Mathlib

/-!
Verification development for the `simplezfs` library (ZFS frontend API,
CLI backend, privilege-escalation helpers, validators).

The Python sources are shallowly embedded: pure parsing and validation
functions become Lean functions; methods that consult the external world
(subprocess runs, the backend implementation, the PE helper, the
`/dev/zvol` probe) take that world as explicit oracle arguments
(`CompletedProcess` values, `Backend`/`Helper` records of functions);
instance attributes (`metadata_namespace`, `_pe_helper`,
`_pe_helper_mode`) become an explicit `ZFSState` that is threaded through
every method and returned, so that attribute mutation is representable.
Exceptions become `Except ZError`.  String primitives reimplement the
exact Python semantics used by the source (`in`, `split`, `strip`,
`lstrip`, truthiness of optional strings, ...).  String literals from the
source are reproduced except that apostrophes are elided from message
texts.
-/

set_option linter.unusedVariables false

namespace SimpleZFS

/-! ### Python string primitives -/

/-- UTF-8 encoded size of a character, as `len(str.encode('utf-8'))` counts it. -/
def charUtf8Size (c : Char) : Nat :=
  if c.toNat < 128 then 1 else if c.toNat < 2048 then 2
  else if c.toNat < 65536 then 3 else 4

/-- Python `len(name.encode('utf-8'))`. -/
def pyByteLen (s : String) : Nat :=
  s.toList.foldl (fun n c => n + charUtf8Size c) 0

/-- Python `c in s` for a single character. -/
def pyContainsChar (s : String) (c : Char) : Bool :=
  s.toList.contains c

/-- Python `s.startswith(p)`. -/
def pyStartsWith (s p : String) : Bool :=
  p.toList.isPrefixOf s.toList

def containsSubstrAux (needle : List Char) : List Char → Bool
  | [] => needle.isEmpty
  | c :: rest => needle.isPrefixOf (c :: rest) || containsSubstrAux needle rest

/-- Python `needle in hay` (substring containment). -/
def containsSubstr (hay needle : String) : Bool :=
  containsSubstrAux needle.toList hay.toList

def pySplitCharAux (sep : Char) : List Char → List Char → List (List Char)
  | [], acc => [acc.reverse]
  | c :: rest, acc =>
    if c == sep then acc.reverse :: pySplitCharAux sep rest []
    else pySplitCharAux sep rest (c :: acc)

/-- Python `s.split(sep)` for a one-character separator. -/
def pySplitChar (s : String) (sep : Char) : List String :=
  (pySplitCharAux sep s.toList []).map List.asString

/-- Python `sep.join(xs)`. -/
def pyJoin (sep : String) : List String → String
  | [] => ""
  | [x] => x
  | x :: y :: rest => x ++ sep ++ pyJoin sep (y :: rest)

/-- Python whitespace for `str.strip()` (ASCII portion, which is all the
sources ever strip). -/
def isPySpace (c : Char) : Bool :=
  c == ' ' || c == '\t' || c == '\n' || c == '\r' || c.toNat == 11 || c.toNat == 12

/-- Python `s.strip()`. -/
def pyStrip (s : String) : String :=
  ((s.toList.dropWhile isPySpace).reverse.dropWhile isPySpace).reverse.asString

/-- Python `s.lstrip(chars)`: removes leading characters that belong to the
character *set* `chars` (not the prefix string `chars`). -/
def pyLstrip (s chars : String) : String :=
  (s.toList.dropWhile (fun c => chars.toList.contains c)).asString

def pyLowerChar (c : Char) : Char :=
  if 'A' ≤ c && c ≤ 'Z' then Char.ofNat (c.toNat + 32) else c

/-- Python `s.lower()` (ASCII portion). -/
def pyToLower (s : String) : String :=
  (s.toList.map pyLowerChar).asString

/-- Python truthiness of an optional string (`if x:`): `None` and `""` are falsy. -/
def optTruthy : Option String → Bool
  | none => false
  | some s => !s.isEmpty

/-- Python truthiness of an optional integer (`if x:`): `None` and `0` are falsy. -/
def intOptTruthy : Option Int → Bool
  | none => false
  | some n => !(n == 0)

/-- Python truthiness of an optional dict (`if x:`): `None` and `{}` are falsy. -/
def propsTruthy : Option (List (String × String)) → Bool
  | none => false
  | some l => !l.isEmpty

def digitsToNat (ds : List Char) : Nat :=
  ds.foldl (fun n c => n * 10 + (c.toNat - 48)) 0

def isDigitCh (c : Char) : Bool := '0' ≤ c && c ≤ '9'

/-- Python `int(s)` on a string: optional surrounding whitespace, optional
sign, one or more decimal digits; anything else raises `ValueError`
(modelled as `none`). -/
def pyStrToInt (s : String) : Option Int :=
  match (pyStrip s).toList with
  | '-' :: ds => if !ds.isEmpty && ds.all isDigitCh then some (-(digitsToNat ds : Int)) else none
  | '+' :: ds => if !ds.isEmpty && ds.all isDigitCh then some ((digitsToNat ds : Int)) else none
  | ds => if !ds.isEmpty && ds.all isDigitCh then some ((digitsToNat ds : Int)) else none

/-! ### Domain model (`simplezfs/types.py`) and exceptions (`simplezfs/exceptions.py`) -/

/-- Modelled from the spec: `PEHelperMode` is the
"enumeration {DO_NOT_USE, USE_IF_REQUIRED, USE_PROACTIVE} — governs when
the PE Helper is invoked relative to an unprivileged attempt".  The
enumeration itself is referenced throughout the sources
(`from .types import ... PEHelperMode ...`) but its class body is not
among the source files. -/
inductive PEHelperMode
  | doNotUse
  | useIfRequired
  | useProactive
deriving DecidableEq, Repr

inductive DatasetType
  | fileset
  | volume
  | snapshot
  | bookmark
deriving DecidableEq, Repr

inductive PropertySource
  | default
  | local
  | inherited
  | temporary
  | received
  | none
deriving DecidableEq, Repr

/-- `Property` named tuple.  The Python field `namespace` is a reserved
word in Lean and is called `nspace` here. -/
structure Property where
  key : String
  value : String
  source : PropertySource
  nspace : Option String
deriving DecidableEq, Repr

structure Dataset where
  name : String
  full_path : String
  pool : String
  parent : Option String
  type : DatasetType
deriving DecidableEq, Repr

/-- The exception kinds raised by the library (`simplezfs/exceptions.py`
plus the builtin exceptions the sources raise). -/
inductive ZError
  | datasetNotFound (msg : String)
  | propertyNotFound (msg : String)
  | permissionError (msg : String)
  | poolNotFound (msg : String)
  | validationError (msg : String)
  | peHelperException (msg : String)
  | externalPEHelperException (msg : String) (returncode : Int)
  | exception (msg : String)
deriving DecidableEq, Repr

/-- Result of `subprocess.run(args, stdout=PIPE, stderr=PIPE, encoding='utf-8')`. -/
structure CompletedProcess where
  args : List String
  returncode : Int
  stdout : String
  stderr : String
deriving DecidableEq, Repr

/-! ### Validators (`simplezfs/validation.py`) -/

def isLowerAlpha (c : Char) : Bool := 'a' ≤ c && c ≤ 'z'

def isUpperAlpha (c : Char) : Bool := 'A' ≤ c && c ≤ 'Z'

/-- Character class `[a-z0-9\-_: .]` from the pool-name regular expression. -/
def isPoolRestChar (c : Char) : Bool :=
  isLowerAlpha c || isDigitCh c || c == '-' || c == '_' || c == ':' || c == ' ' || c == '.'

/-- `re.match(r'^[a-z]([a-z0-9\-_: .]+)?$', name)` as a Boolean. -/
def matchPoolNameRe (s : String) : Bool :=
  match s.toList with
  | [] => false
  | c :: rest => isLowerAlpha c && rest.all isPoolRestChar

/-- `re.match(r'^c[0-9]', name)` as a Boolean (unanchored at the end). -/
def matchC09 (s : String) : Bool :=
  match s.toList with
  | c :: d :: _ => c == 'c' && isDigitCh d
  | _ => false

def validate_pool_name (name : String) : Except ZError Unit :=
  if pyByteLen name < 1 then .error (.validationError "too short")
  else if !matchPoolNameRe name then .error (.validationError "malformed name")
  else if name == "mirror" || name == "raidz" || name == "spare" || name == "log" then
    .error (.validationError "reserved name")
  else if pyStartsWith name "mirror" then .error (.validationError "starts with invalid token mirror")
  else if pyStartsWith name "raidz" then .error (.validationError "starts with invalid token raidz")
  else if pyStartsWith name "spare" then .error (.validationError "starts with invalid token spare")
  else if matchC09 name then .error (.validationError "begins with reserved sequence c[0-9]")
  else .ok ()

/-- Character class `[a-zA-Z0-9_\-.:]` of `DATASET_NAME_RE`. -/
def isDsNameChar (c : Char) : Bool :=
  isLowerAlpha c || isUpperAlpha c || isDigitCh c || c == '_' || c == '-' || c == '.' || c == ':'

/-- `DATASET_NAME_RE = ^(?P<dataset>[a-zA-Z0-9_\-.:]+)(?P<detail>(@|#)[a-zA-Z0-9_\-.:]+)?$`.
The character class excludes `@` and `#`, so the first non-member
character (if any) must start the detail group. -/
def matchDatasetNameRe (s : String) : Bool :=
  let cs := s.toList
  let base := cs.takeWhile isDsNameChar
  let rest := cs.dropWhile isDsNameChar
  !base.isEmpty &&
    match rest with
    | [] => true
    | c :: detail => (c == '@' || c == '#') && !detail.isEmpty && detail.all isDsNameChar

/-- Whether the `detail` group of `DATASET_NAME_RE` is present (meaningful
only when the name matches the expression). -/
def datasetNameDetail (s : String) : Bool :=
  !(s.toList.dropWhile isDsNameChar).isEmpty

def MAXNAMELEN : Nat := 256

def validate_dataset_name (name : String) (strict : Bool) : Except ZError Unit :=
  if pyByteLen name < 1 then .error (.validationError "name is too short")
  else if pyByteLen name > MAXNAMELEN - 1 then .error (.validationError "length > 255")
  else if !matchDatasetNameRe name then .error (.validationError "name contains disallowed characters")
  else if strict && datasetNameDetail name then
    .error (.validationError "snapshot or bookmark identifier are not allowed in strict mode")
  else .ok ()

def validate_strict_names : List String → Except ZError Unit
  | [] => .ok ()
  | n :: rest =>
    match validate_dataset_name n true with
    | .error e => .error e
    | .ok () => validate_strict_names rest

def validate_dataset_path (path : String) : Except ZError Unit :=
  if pyByteLen path < 3 then .error (.validationError "path is too short")
  else if !pyContainsChar path '/' then .error (.validationError "Not a path")
  else if pyStartsWith path "/" then .error (.validationError "zfs dataset paths are never absolute")
  else
    let tokens := pySplitChar path '/'
    match validate_pool_name (tokens.headD "") with
    | .error e => .error e
    | .ok () =>
      match validate_strict_names (tokens.drop 1).dropLast with
      | .error e => .error e
      | .ok () => validate_dataset_name (tokens.getLastD "") false

/-- `NATIVE_PROPERTY_NAME_RE = ^[a-z]([a-z0-9]+)?$`. -/
def matchNativePropertyNameRe (s : String) : Bool :=
  match s.toList with
  | [] => false
  | c :: rest => isLowerAlpha c && rest.all (fun d => isLowerAlpha d || isDigitCh d)

def validate_native_property_name (name : String) : Except ZError Unit :=
  if pyByteLen name < 1 then .error (.validationError "name is too short")
  else if pyByteLen name > MAXNAMELEN - 1 then .error (.validationError "length > 255")
  else if !matchNativePropertyNameRe name then .error (.validationError "property name does not match")
  else .ok ()

def isMetaNsFirstChar (c : Char) : Bool :=
  isLowerAlpha c || isDigitCh c || c == '_' || c == '.'

def isMetaNsRestChar (c : Char) : Bool :=
  isMetaNsFirstChar c || c == '-'

def isMetaKeyChar (c : Char) : Bool :=
  isLowerAlpha c || isDigitCh c || c == ':' || c == '_' || c == '.' || c == '-'

/-- `METADATA_PROPERTY_NAME_RE = ^([a-z0-9_.]([a-z0-9_.\-]+)?)?:([a-z0-9:_.\-]+)$`.
The namespace group cannot contain `:`, so the first `:` separates the
groups; the key group may itself contain further colons. -/
def matchMetadataPropertyNameRe (s : String) : Bool :=
  let cs := s.toList
  let ns := cs.takeWhile (fun c => !(c == ':'))
  match cs.dropWhile (fun c => !(c == ':')) with
  | [] => false
  | _ :: key =>
    (match ns with
     | [] => true
     | c :: rest => isMetaNsFirstChar c && rest.all isMetaNsRestChar) &&
    !key.isEmpty && key.all isMetaKeyChar

def validate_metadata_property_name (name : String) : Except ZError Unit :=
  if pyByteLen name < 1 then .error (.validationError "name is too short")
  else if pyByteLen name > MAXNAMELEN - 1 then .error (.validationError "length > 255")
  else if !matchMetadataPropertyNameRe name then .error (.validationError "property name does not match")
  else .ok ()

def METADATA_PROPERTY_VALUE_LEN_MAX : Nat := 8192

def validate_property_value (value : String) : Except ZError Unit :=
  if pyByteLen value > METADATA_PROPERTY_VALUE_LEN_MAX - 1 then
    .error (.validationError "length > 8191")
  else .ok ()

/-! ### Enum parsers and `Dataset.from_string` (`simplezfs/types.py`) -/

/-- `PropertySource.from_string`.  The `ValueError` it raises for unknown
text is modelled as the generic exception kind. -/
def PropertySource.from_string (value : String) : Except ZError PropertySource :=
  let val := pyToLower value
  if val == "default" then .ok .default
  else if val == "local" then .ok .local
  else if val == "inherited" || pyStartsWith val "inherited from " then .ok .inherited
  else if val == "temporary" then .ok .temporary
  else if val == "received" then .ok .received
  else if val == "none" || val == "-" then .ok .none
  else .error (.exception ("Value " ++ val ++ " is not a valid PropertySource"))

/-- `Dataset.from_string`.  The probe
`os.path.exists(os.path.join('/dev/zvol', value))` is an external-state
read and is passed in as the oracle `zvolExists`. -/
def Dataset.from_string (zvolExists : String → Bool) (value : String) : Except ZError Dataset :=
  let parsed : Except ZError (String × Option String × String) :=
    if pyContainsChar value '/' then
      match validate_dataset_path value with
      | .error e => .error e
      | .ok () =>
        let tokens := pySplitChar value '/'
        .ok (tokens.getLastD "", some (pyJoin "/" tokens.dropLast), tokens.headD "")
    else
      match validate_pool_name value with
      | .error e => .error e
      | .ok () => .ok (value, none, value)
  match parsed with
  | .error e => .error e
  | .ok (ds_name, ds_parent, ds_pool) =>
    let ds_type : DatasetType :=
      if pyContainsChar ds_name '@' then .snapshot
      else if pyContainsChar ds_name '#' then .bookmark
      else if zvolExists value then .volume
      else .fileset
    .ok { name := ds_name, full_path := value, pool := ds_pool, parent := ds_parent,
          type := ds_type }

/-! ### Command-error classification and executors
(`simplezfs/zfs_cli.py`, `simplezfs/pe_helper.py`) -/

/-- `ZFSCli.handle_command_error`.  The Python method always raises; here
it returns the exception it would raise. -/
def handle_command_error (proc : CompletedProcess) (dataset : Option String) : ZError :=
  if containsSubstr proc.stderr "dataset does not exist" then
    match dataset with
    | some ds => .datasetNotFound ("Dataset \"" ++ ds ++ "\" not found")
    | none => .datasetNotFound "Dataset not found"
  else if containsSubstr proc.stderr "bad property list: invalid property" then
    match dataset with
    | some ds => .propertyNotFound ("invalid property on dataset " ++ ds)
    | none => .propertyNotFound "invalid property"
  else if containsSubstr proc.stderr "permission denied" then
    .permissionError proc.stderr
  else if containsSubstr proc.stderr "filesystem successfully created, but it may only be mounted by root" then
    .permissionError proc.stderr
  else
    .exception ("Command execution \"" ++ pyJoin " " proc.args ++ "\" failed: " ++ proc.stderr)

/-- `ZFSCli._set_property`: runs `zfs set {key}={value} {dataset}`; the
`subprocess.run` result is the oracle `proc`. -/
def ZFSCli._set_property (dataset key value : String) (is_metadata : Bool)
    (proc : CompletedProcess) : Except ZError Unit :=
  if !(proc.returncode == 0) || proc.stderr.length > 0 then
    .error (handle_command_error proc (some dataset))
  else .ok ()

/-- `SudoPEHelper._execute_cmd`: `args = [sudo, '-n'] + cmd`; commands
shorter than 4 tokens are refused before anything runs; the
`subprocess.run` result for the accepted case is the oracle `proc`. -/
def SudoPEHelper._execute_cmd (exe : String) (cmd : List String)
    (proc : CompletedProcess) : Except ZError Unit :=
  let args := [exe, "-n"] ++ cmd
  if args.length < 4 then .error (.peHelperException "Command suspicously short")
  else if !(proc.returncode == 0) || proc.stderr.length > 0 then
    .error (.peHelperException ("Error running command " ++ pyJoin " " args ++ ": " ++ proc.stderr))
  else .ok ()

/-- `ExternalPEHelper._execute_cmd`: maps the exit code to a message from
the fixed table and wraps everything in `ExternalPEHelperException`. -/
def ExternalPEHelper._execute_cmd (proc : CompletedProcess) : Except ZError Unit :=
  if !(proc.returncode == 0) || proc.stderr.length > 0 then
    let msg :=
      if proc.returncode == 1 then "General error"
      else if proc.returncode == 2 then "Parent directory does not exist or is not a directory"
      else if proc.returncode == 3 then "Parent dataset does not exist"
      else if proc.returncode == 4 then "Target fileset is not a (grand)child of parent or parent does not exist"
      else if proc.returncode == 5 then "Mountpoint is not inside the parent directory or otherwise invalid"
      else if proc.returncode == 6 then "Calling the zfs utility failed"
      else "Unknown / Unhandled error with returncode " ++ toString proc.returncode
    .error (.externalPEHelperException msg proc.returncode)
  else .ok ()

/-- One parsed row of `zfs get -H -p all` output, as consumed by
`ZFSCli._get_properties`: Python unpacks `line.strip().split('\t')` into
exactly four names and raises `ValueError` otherwise. -/
def parsePropLine (line : String) : Except ZError (String × String × String × String) :=
  match pySplitChar (pyStrip line) '\t' with
  | [a, b, c, d] => .ok (a, b, c, d)
  | _ => .error (.exception "ValueError: unexpected number of tab-separated fields")

def ZFSCli._get_properties_rows (include_metadata : Bool) :
    List String → List Property → Except ZError (List Property)
  | [], res => .ok res
  | line :: rest, res =>
    if !(line == "") then
      match parsePropLine line with
      | .error e => .error e
      | .ok (_, prop_name, prop_value, prop_source) =>
        match PropertySource.from_string prop_source with
        | .error e => .error e
        | .ok property_source =>
          if pyContainsChar prop_name ':' then
            if include_metadata then
              let nspace := (pySplitChar prop_name ':').headD ""
              let prop_name := pyLstrip prop_name (nspace ++ ":")
              ZFSCli._get_properties_rows include_metadata rest
                (res ++ [{ key := prop_name, value := prop_value, source := property_source,
                           nspace := some nspace }])
            else ZFSCli._get_properties_rows include_metadata rest res
          else
            ZFSCli._get_properties_rows include_metadata rest
              (res ++ [{ key := prop_name, value := prop_value, source := property_source,
                         nspace := Option.none }])
    else ZFSCli._get_properties_rows include_metadata rest res

/-- `ZFSCli._get_properties`: runs `zfs get -H -p all {dataset}` (result
oracle `proc`) and parses the output rows. -/
def ZFSCli._get_properties (proc : CompletedProcess) (dataset : String)
    (include_metadata : Bool) : Except ZError (List Property) :=
  if !(proc.returncode == 0) || proc.stderr.length > 0 then
    .error (handle_command_error proc (some dataset))
  else
    ZFSCli._get_properties_rows include_metadata (pySplitChar proc.stdout '\n') []

/-! ### Frontend instance state (`simplezfs/zfs.py`, `simplezfs/zpool.py`)

A privilege-escalation helper instance is a record of the capability
methods the frontend invokes on it (`PEHelperBase` subclasses). -/

structure Helper where
  zfs_set_mountpoint : String → String → Except ZError Unit
  zfs_mount : String → Except ZError Unit
  zfs_umount : String → Except ZError Unit
  zfs_destroy_dataset : String → Bool → Bool → Except ZError Unit

/-- The mutable attributes of a `ZFS` instance:
`_metadata_namespace`, `_pe_helper` and `_pe_helper_mode`. -/
structure ZFSState where
  metadata_namespace : Option String
  pe_helper : Option Helper
  pe_helper_mode_stored : PEHelperMode

/-- The `pe_helper_mode` property getter of `ZFS`: when `_pe_helper is
None` it returns `DO_NOT_USE` regardless of the stored mode. -/
def ZFS.pe_helper_mode (st : ZFSState) : PEHelperMode :=
  match st.pe_helper with
  | none => .doNotUse
  | some _ => st.pe_helper_mode_stored

/-- The `metadata_namespace` property setter of `ZFS`. -/
def ZFS.set_metadata_namespace (st : ZFSState) (ns : Option String) : ZFSState :=
  { st with metadata_namespace := ns }

/-- The `pe_helper` property setter of `ZFS`. -/
def ZFS.set_pe_helper (st : ZFSState) (h : Option Helper) : ZFSState :=
  { st with pe_helper := h }

/-- The `pe_helper_mode` property setter of `ZFS`. -/
def ZFS.set_pe_helper_mode (st : ZFSState) (m : PEHelperMode) : ZFSState :=
  { st with pe_helper_mode_stored := m }

/-- The deprecated `use_pe_helper` property setter of `ZFS` (it reads the
gated `pe_helper_mode` property and writes through its setter). -/
def ZFS.set_use_pe_helper (st : ZFSState) (use : Bool) : ZFSState :=
  if use then
    if ZFS.pe_helper_mode st == .doNotUse then ZFS.set_pe_helper_mode st .useProactive
    else st
  else ZFS.set_pe_helper_mode st .doNotUse

/-- One call to a `ZFS` attribute setter. -/
inductive SetterOp
  | setMetadataNamespace (ns : Option String)
  | setPeHelper (h : Option Helper)
  | setPeHelperMode (m : PEHelperMode)
  | setUsePeHelper (use : Bool)

def ZFS.applySetters (st : ZFSState) : List SetterOp → ZFSState
  | [] => st
  | op :: rest =>
    let st1 := match op with
      | .setMetadataNamespace ns => ZFS.set_metadata_namespace st ns
      | .setPeHelper h => ZFS.set_pe_helper st h
      | .setPeHelperMode m => ZFS.set_pe_helper_mode st m
      | .setUsePeHelper u => ZFS.set_use_pe_helper st u
    ZFS.applySetters st1 rest

/-- The mutable attributes of a `ZPool` instance (`simplezfs/zpool.py`). -/
structure ZPoolState where
  metadata_namespace : Option String
  pe_helper : Option Helper
  pe_helper_mode_stored : PEHelperMode

/-- The `pe_helper_mode` property getter of `ZPool`. -/
def ZPool.pe_helper_mode (st : ZPoolState) : PEHelperMode :=
  match st.pe_helper with
  | none => .doNotUse
  | some _ => st.pe_helper_mode_stored

def ZPool.set_metadata_namespace (st : ZPoolState) (ns : Option String) : ZPoolState :=
  { st with metadata_namespace := ns }

def ZPool.set_pe_helper (st : ZPoolState) (h : Option Helper) : ZPoolState :=
  { st with pe_helper := h }

def ZPool.set_pe_helper_mode (st : ZPoolState) (m : PEHelperMode) : ZPoolState :=
  { st with pe_helper_mode_stored := m }

/-- One call to a `ZPool` attribute setter (`ZPool` has no deprecated
`use_pe_helper` property). -/
inductive ZPoolSetterOp
  | setMetadataNamespace (ns : Option String)
  | setPeHelper (h : Option Helper)
  | setPeHelperMode (m : PEHelperMode)

def ZPool.applySetters (st : ZPoolState) : List ZPoolSetterOp → ZPoolState
  | [] => st
  | op :: rest =>
    let st1 := match op with
      | .setMetadataNamespace ns => ZPool.set_metadata_namespace st ns
      | .setPeHelper h => ZPool.set_pe_helper st h
      | .setPeHelperMode m => ZPool.set_pe_helper_mode st m
    ZPool.applySetters st1 rest

/-! ### Frontend operations (`simplezfs/zfs.py`)

The abstract backend methods `_get_property`, `_set_property`,
`_get_properties` (implemented by `ZFSCli`/`ZFSNative`) are supplied as an
oracle record; the frontend methods are state-threaded. -/

structure Backend where
  getProperty : String → String → Bool → Except ZError Property
  setProperty : String → String → String → Bool → Except ZError Unit
  getProperties : String → Bool → Except ZError (List Property)

/-- The metadata-namespace resolution block shared verbatim by
`ZFS.get_property` and `ZFS.set_property`: prepend the overriding or the
configured namespace (Python truthiness) and validate the resolved name
against the matching grammar. -/
def resolve_prop_name (mdns : Option String) (key : String) (metadata : Bool)
    (overwrite_metadata_namespace : Option String) : Except ZError String :=
  if metadata then
    match (if optTruthy overwrite_metadata_namespace then
             .ok ((overwrite_metadata_namespace.getD "") ++ ":" ++ key)
           else if optTruthy mdns then .ok ((mdns.getD "") ++ ":" ++ key)
           else .error (.validationError "no metadata namespace set") :
           Except ZError String) with
    | .error e => .error e
    | .ok prop_name =>
      match validate_metadata_property_name prop_name with
      | .error e => .error e
      | .ok () => .ok prop_name
  else
    match validate_native_property_name key with
    | .error e => .error e
    | .ok () => .ok key

/-- `ZFS.get_property`. -/
def ZFS.get_property (st : ZFSState) (be : Backend) (dataset key : String)
    (metadata : Bool) (overwrite_metadata_namespace : Option String) :
    ZFSState × Except ZError Property :=
  if pyStrip key == "all" && !metadata then
    (st, .error (.validationError "\"all\" is not a valid property, use get_properties instead"))
  else
    match (if !pyContainsChar dataset '/' then validate_pool_name dataset
           else validate_dataset_path dataset) with
    | .error e => (st, .error e)
    | .ok () =>
      match resolve_prop_name st.metadata_namespace key metadata overwrite_metadata_namespace with
      | .error e => (st, .error e)
      | .ok prop_name => (st, be.getProperty dataset prop_name metadata)

/-- `ZFS.set_property`. -/
def ZFS.set_property (st : ZFSState) (be : Backend) (dataset key value : String)
    (metadata : Bool) (overwrite_metadata_namespace : Option String) :
    ZFSState × Except ZError Unit :=
  if pyStrip key == "all" && !metadata then
    (st, .error (.validationError "\"all\" is not a valid property name"))
  else
    match (if !pyContainsChar dataset '/' then validate_pool_name dataset
           else validate_dataset_path dataset) with
    | .error e => (st, .error e)
    | .ok () =>
      match resolve_prop_name st.metadata_namespace key metadata overwrite_metadata_namespace with
      | .error e => (st, .error e)
      | .ok prop_name =>
        match validate_property_value value with
        | .error e => (st, .error e)
        | .ok () => (st, be.setProperty dataset prop_name value metadata)

/-- `ZFS.get_properties`. -/
def ZFS.get_properties (st : ZFSState) (be : Backend) (dataset : String)
    (include_metadata : Bool) : ZFSState × Except ZError (List Property) :=
  match (if !pyContainsChar dataset '/' then validate_pool_name dataset
         else validate_dataset_path dataset) with
  | .error e => (st, .error e)
  | .ok () => (st, be.getProperties dataset include_metadata)

/-- `ZFS.dataset_exists`: probes `get_property(name, 'type')` and maps
the outcome; `DatasetNotFound`, `PermissionError` and `PoolNotFound`
become `False`, `PropertyNotFound` becomes `True`, success becomes `True`
(the returned `Property` is never `None`); other exceptions propagate. -/
def ZFS.dataset_exists (st : ZFSState) (be : Backend) (name : String) :
    ZFSState × Except ZError Bool :=
  match ZFS.get_property st be name "type" false none with
  | (st1, .ok _) => (st1, .ok true)
  | (st1, .error (.datasetNotFound _)) => (st1, .ok false)
  | (st1, .error (.permissionError _)) => (st1, .ok false)
  | (st1, .error (.poolNotFound _)) => (st1, .ok false)
  | (st1, .error (.propertyNotFound _)) => (st1, .ok true)
  | (st1, .error e) => (st1, .error e)

/-- Python compares `ds_type = self.get_property(fileset, 'type')`, a
`Property` named tuple, directly against the string `'filesystem'`
(`if ds_type != 'filesystem':`); a tuple never equals a string, so the
inequality always holds. -/
def pyPropertyNeStr (p : Property) (s : String) : Bool := true

/-- A recorded invocation of the PE helper by `set_mountpoint`. -/
inductive HelperCall
  | setMountpoint (fileset mountpoint : String)
deriving DecidableEq, Repr

/-- `ZFS.set_mountpoint`.  Returns the post-state, the outcome and the
list of `zfs_set_mountpoint` helper invocations made. -/
def ZFS.set_mountpoint (st : ZFSState) (be : Backend) (fileset mountpoint : String)
    (pe_helper_mode : Option PEHelperMode) :
    ZFSState × Except ZError Unit × List HelperCall :=
  match (if !pyContainsChar fileset '/' then validate_pool_name fileset
         else validate_dataset_path fileset) with
  | .error e => (st, .error e, [])
  | .ok () =>
    match validate_property_value mountpoint with
    | .error e => (st, .error e, [])
    | .ok () =>
      match ZFS.get_property st be fileset "type" false none with
      | (st1, .error e) => (st1, .error e, [])
      | (st1, .ok ds_type) =>
        if pyPropertyNeStr ds_type "filesystem" then
          (st1, .error (.validationError "Dataset is not a filesystem and cannot have its mountpoint set"), [])
        else
          let real_pe_helper_mode :=
            match pe_helper_mode with
            | some m => m
            | none => ZFS.pe_helper_mode st1
          match st1.pe_helper, real_pe_helper_mode with
          | some helper, .useProactive =>
            (st1, helper.zfs_set_mountpoint fileset mountpoint,
             [.setMountpoint fileset mountpoint])
          | hopt, real =>
            match ZFS.set_property st1 be fileset "mountpoint" mountpoint false none with
            | (st2, .ok ()) => (st2, .ok (), [])
            | (st2, .error (.permissionError msg)) =>
              match hopt with
              | some helper =>
                if real == .useIfRequired then
                  (st2, helper.zfs_set_mountpoint fileset mountpoint,
                   [.setMountpoint fileset mountpoint])
                else (st2, .error (.permissionError msg), [])
              | none =>
                -- Python only logs `Permission error ... and PE helper is not set`
                -- here and falls through, returning None.
                (st2, .ok (), [])
            | (st2, .error e) => (st2, .error e, [])

/-! ### `ZFS.create_dataset` (`simplezfs/zfs.py`) -/

/-- The loop `for k, val in properties.items(): validate_native_property_name(k);
validate_property_value(val)`. -/
def validate_props : List (String × String) → Except ZError Unit
  | [] => .ok ()
  | (k, val) :: rest =>
    match validate_native_property_name k with
    | .error e => .error e
    | .ok () =>
      match validate_property_value val with
      | .error e => .error e
      | .ok () => validate_props rest

/-- Python dict item assignment `d[k] = v`. -/
def dictInsert (d : List (String × String)) (k v : String) : List (String × String) :=
  if d.any (fun p => p.1 == k) then d.map (fun p => if p.1 == k then (k, v) else p)
  else d ++ [(k, v)]

/-- The loop building `_metadata_properties` in `ZFS.create_dataset`:
namespace-qualify keys lacking one (failing when no default namespace is
set, Python truthiness on `self._metadata_namespace`), record the entry,
then validate name and value.  Values are strings in this model, so the
`isinstance` re-stringification is a no-op. -/
def build_metadata_props (mdns : Option String) :
    List (String × String) → List (String × String) →
    Except ZError (List (String × String))
  | [], acc => .ok acc
  | (k, val) :: rest, acc =>
    match (if !pyContainsChar k ':' then
             (if !optTruthy mdns then
                .error (.validationError
                  ("Metadata property " ++ k ++ " has no namespace and none is set globally"))
              else .ok ((mdns.getD "") ++ ":" ++ k))
           else .ok k : Except ZError String) with
    | .error e => .error e
    | .ok meta_name =>
      let acc1 := dictInsert acc meta_name val
      match validate_metadata_property_name meta_name with
      | .error e => .error e
      | .ok () =>
        match validate_property_value val with
        | .error e => .error e
        | .ok () => build_metadata_props mdns rest acc1

/-- In the source, the toplevel guard reads
`if '/' not in name and type in (DatasetType.FILESET, DatasetType.VOLUME):`
comparing the Python *builtin* `type` — not the `dataset_type` argument —
against the tuple, so the membership test is always false. -/
def pyBuiltinTypeInFilesetVolume : Bool := false

/-- The backend creation methods `_create_fileset`, `_create_volume` and
`_create_snapshot` as an oracle record. -/
structure CreateBackend where
  createFileset : String → Option (List (String × String)) → List (String × String) →
    Bool → Except ZError Dataset
  createVolume : String → Option (List (String × String)) → List (String × String) →
    Bool → Option Int → Bool → Except ZError Dataset
  createSnapshot : String → Option (List (String × String)) → List (String × String) →
    Bool → Except ZError Dataset

/-- A recorded delegation to one of the backend creation methods. -/
inductive CreateCall
  | createFileset (name : String)
  | createVolume (name : String)
  | createSnapshot (name : String)
deriving DecidableEq, Repr

/-- Continuation of `ZFS.create_dataset` for the VOLUME type after the
parent-existence check: the `size` and `blocksize` validations and the
delegation to `_create_volume`. -/
def ZFS.create_dataset_volume_tail (st2 : ZFSState) (cbe : CreateBackend) (name : String)
    (properties : Option (List (String × String))) (mprops : List (String × String))
    (sparse : Bool) (size : Option Int) (recursive : Bool) :
    ZFSState × Except ZError Dataset × List CreateCall :=
  if !intOptTruthy size then
    (st2, .error (.validationError "Size must be specified for volumes"), [])
  else
    -- `size = int(size)` is the identity on an integer size
    let sizeVal := size.getD 0
    if sizeVal < 1 then
      (st2, .error (.validationError "Size is too low"), [])
    else
      match (if propsTruthy properties then (properties.getD []).lookup "blocksize"
             else none : Option String) with
      | some bs =>
        match pyStrToInt bs with
        | none =>
          (st2, .error (.validationError "blocksize must be an integer"), [])
        | some blocksize =>
          if blocksize < 2 || blocksize > 128 * 1024 then
            (st2, .error (.validationError "blocksize must be between 2 and 128kb (inclusive)"), [])
          else if !((blocksize.toNat &&& (blocksize.toNat - 1) == 0)
                    && !(blocksize == 0)) then
            (st2, .error (.validationError "blocksize must be a power of two"), [])
          else
            (st2, cbe.createVolume name properties mprops sparse size recursive,
             [.createVolume name])
      | none =>
        (st2, cbe.createVolume name properties mprops sparse size recursive,
         [.createVolume name])

/-- Continuation of `ZFS.create_dataset` for the FILESET and VOLUME
types: the `@`/`#` check, the parent-existence check and the delegation. -/
def ZFS.create_dataset_fsvol (st1 : ZFSState) (be : Backend) (cbe : CreateBackend)
    (name : String) (dataset_type : DatasetType)
    (properties : Option (List (String × String))) (mprops : List (String × String))
    (sparse : Bool) (size : Option Int) (recursive : Bool) :
    ZFSState × Except ZError Dataset × List CreateCall :=
  if pyContainsChar name '@' || pyContainsChar name '#' then
    (st1, .error (.validationError
      "Volumes/Filesets cannot contain @ (snapshot) or # (bookmark)"), [])
  else
    let parent_ds := pyJoin "/" (pySplitChar name '/').dropLast
    match ZFS.dataset_exists st1 be parent_ds with
    | (st2, .error e) => (st2, .error e, [])
    | (st2, .ok parent_exists) =>
      if !parent_exists && !recursive then
        (st2, .error (.datasetNotFound
          ("Parent dataset \"" ++ parent_ds ++
           "\" does not exist and \"recursive\" is not set")), [])
      else
        if dataset_type == .volume then
          ZFS.create_dataset_volume_tail st2 cbe name properties mprops sparse size recursive
        else
          (st2, cbe.createFileset name properties mprops recursive,
           [.createFileset name])

/-- Continuation of `ZFS.create_dataset` for the SNAPSHOT type.  In this
branch `recursive` is reset to `False` with a warning and
`symbol = '@' if dataset_type == DatasetType.SNAPSHOT else '#'` is always
`'@'`. -/
def ZFS.create_dataset_snapshot_tail (st1 : ZFSState) (be : Backend) (cbe : CreateBackend)
    (name : String) (properties : Option (List (String × String)))
    (mprops : List (String × String)) :
    ZFSState × Except ZError Dataset × List CreateCall :=
  let recursive := false
  let symbol := '@'
  if !pyContainsChar name symbol then
    (st1, .error (.validationError ("Name must include " ++ String.mk [symbol] ++ "name")), [])
  else
    match pySplitChar name symbol with
    | [ds_name, _ss_name] =>
      match ZFS.dataset_exists st1 be ds_name with
      | (st2, .error e) => (st2, .error e, [])
      | (st2, .ok false) =>
        (st2, .error (.datasetNotFound
          ("The parent dataset \"" ++ ds_name ++ "\" could not be found")), [])
      | (st2, .ok true) =>
        (st2, cbe.createSnapshot name properties mprops recursive,
         [.createSnapshot name])
    | _ => (st1, .error (.exception "ValueError: too many values to unpack"), [])

/-- `ZFS.create_dataset`: the single validated entry point for dataset
creation.  Returns the post-state, the outcome and the list of backend
creation delegations. -/
def ZFS.create_dataset (st : ZFSState) (be : Backend) (cbe : CreateBackend)
    (name : String) (dataset_type : DatasetType)
    (properties : Option (List (String × String)))
    (metadata_properties : Option (List (String × String)))
    (sparse : Bool) (size : Option Int) (recursive : Bool) :
    ZFSState × Except ZError Dataset × List CreateCall :=
  if dataset_type == .bookmark then
    (st, .error (.validationError "Bookmarks cannot be created using this function."), [])
  else
    match (if pyContainsChar name '/' then validate_dataset_path name
           else validate_pool_name name) with
    | .error e => (st, .error e, [])
    | .ok () =>
      match ZFS.dataset_exists st be name with
      | (st1, .error e) => (st1, .error e, [])
      | (st1, .ok true) => (st1, .error (.exception "Dataset already exists"), [])
      | (st1, .ok false) =>
        if !pyContainsChar name '/' && pyBuiltinTypeInFilesetVolume then
          (st1, .error (.validationError
            "Cannot create a toplevel fileset or volume, use ZPool instead."), [])
        else
          match (match properties with
                 | none => .ok ()
                 | some ps => validate_props ps : Except ZError Unit) with
          | .error e => (st1, .error e, [])
          | .ok () =>
            match (match metadata_properties with
                   | none => .ok []
                   | some ms => build_metadata_props st1.metadata_namespace ms [] :
                   Except ZError (List (String × String))) with
            | .error e => (st1, .error e, [])
            | .ok mprops =>
              -- sparse and size are reset for all but the VOLUME type
              let sparse := if !(dataset_type == .volume) && sparse then false else sparse
              let size := if !(dataset_type == .volume) && intOptTruthy size then none else size
              if dataset_type == .fileset || dataset_type == .volume then
                ZFS.create_dataset_fsvol st1 be cbe name dataset_type properties mprops
                  sparse size recursive
              else if dataset_type == .snapshot then
                ZFS.create_dataset_snapshot_tail st1 be cbe name properties mprops
              else
                -- unreachable: BOOKMARK was rejected at the top; the Python
                -- function would fall through and return None here
                (st1, .error (.exception "create_dataset returned None"), [])

/-! ### Dataset destruction (`simplezfs/zfs.py`, `simplezfs/zfs_cli.py`)

`ZFSCli._destroy_dataset` may retry itself after a helper-driven unmount;
that self-recursion is unbounded in Python (a `RecursionError` if the
unmount keeps failing), modelled here with a `fuel` counter whose
exhaustion stands for the Python stack overflow.  The results of the
successive `subprocess.run` invocations are the oracle `runs`, indexed by
invocation count `i`. -/

/-- The proactive-unmount preamble of `ZFSCli._destroy_dataset`: when a
helper is set and the mode is `USE_PROACTIVE`, probe the `mounted`
property and unmount through the helper if it reads `yes`. -/
def ZFSCli._destroy_dataset_proactive_umount (st : ZFSState) (be : Backend)
    (dataset : String) : ZFSState × Except ZError Unit :=
  match st.pe_helper, ZFS.pe_helper_mode st with
  | some helper, .useProactive =>
    match ZFS.get_property st be dataset "mounted" false none with
    | (st1, .error e) => (st1, .error e)
    | (st1, .ok test_prop) =>
      if test_prop.value == "yes" then (st1, helper.zfs_umount dataset)
      else (st1, .ok ())
  | _, _ => (st, .ok ())

def ZFSCli._destroy_dataset :
    Nat → ZFSState → Backend → (Nat → CompletedProcess) → Nat → String → Bool → Bool →
    ZFSState × Except ZError Unit
  | 0, st, _, _, _, _, _, _ => (st, .error (.exception "RecursionError"))
  | fuel + 1, st, be, runs, i, dataset, recursive, force_umount =>
    match ZFSCli._destroy_dataset_proactive_umount st be dataset with
    | (st1, .error e) => (st1, .error e)
    | (st1, .ok ()) =>
      let proc := runs i
      if !(proc.returncode == 0) || proc.stderr.length > 0 then
        if containsSubstr proc.stderr "has children" then
          if recursive then
            -- Python logs `has children and recursive was given, please
            -- report this` and falls through, returning None
            (st1, .ok ())
          else (st1, .error (.exception ""))
        else if (containsSubstr proc.stderr "cannot destroy"
                 && containsSubstr proc.stderr "permission denied")
                || containsSubstr proc.stderr "only root can" then
          if !(ZFS.pe_helper_mode st1 == .doNotUse) then
            match st1.pe_helper with
            | some helper => (st1, helper.zfs_destroy_dataset dataset recursive force_umount)
            | none => (st1, .error (.permissionError "Cannot destroy: No pe_helper set"))
          else (st1, .error (.permissionError proc.stderr))
        else if containsSubstr proc.stderr "cannot umount"
                && containsSubstr proc.stderr "umount failed" then
          match st1.pe_helper with
          | some helper =>
            if !(ZFS.pe_helper_mode st1 == .doNotUse) then
              match helper.zfs_umount dataset with
              | .error e => (st1, .error e)
              | .ok () => ZFSCli._destroy_dataset fuel st1 be runs (i + 1) dataset recursive force_umount
            else (st1, .error (.permissionError "Umounting failed and pe_helper is not allowed"))
          | none => (st1, .error (.permissionError "Umounting failed and pe_helper is not allowed"))
        else (st1, .error (handle_command_error proc none))
      else (st1, .ok ())

/-- `ZFS.destroy_dataset` with the `ZFSCli` backend implementation of
`_destroy_dataset`. -/
def ZFS.destroy_dataset (fuel : Nat) (st : ZFSState) (be : Backend)
    (runs : Nat → CompletedProcess) (dataset : String) (recursive force_umount : Bool) :
    ZFSState × Except ZError Unit :=
  if !pyContainsChar dataset '/' then
    (st, .error (.validationError "Cannot destroy the pool using this function"))
  else
    match validate_dataset_path dataset with
    | .error e => (st, .error e)
    | .ok () =>
      match ZFS.dataset_exists st be dataset with
      | (st1, .error e) => (st1, .error e)
      | (st1, .ok false) => (st1, .error (.datasetNotFound "The dataset could not be found"))
      | (st1, .ok true) => ZFSCli._destroy_dataset fuel st1 be runs 0 dataset recursive force_umount

/-! ### Helper lemmas -/

theorem string_length_pos (s : String) : 0 < s.length ↔ s ≠ "" := by
  cases s with
  | mk data =>
    cases data with
    | nil => simp [String.length]
    | cons c cs =>
      simp only [String.length]
      constructor
      · intro _ h
        have := congrArg String.data h
        simp at this
      · intro _
        simp

theorem asString_toList (s : String) : s.toList.asString = s := by
  cases s with
  | mk data => rfl

theorem pySplitCharAux_no_sep (sep : Char) (l : List Char) (h : sep ∉ l) :
    ∀ acc, pySplitCharAux sep l acc = [acc.reverse ++ l] := by
  induction l with
  | nil => intro acc; simp [pySplitCharAux]
  | cons c rest ih =>
    intro acc
    have hc : (c == sep) = false := by
      by_cases hcc : c = sep
      · subst hcc; exact absurd (List.mem_cons_self c rest) h
      · simp [hcc]
    have hrest : sep ∉ rest := fun hm => h (List.mem_cons_of_mem c hm)
    simp only [pySplitCharAux]
    rw [if_neg (by simp [hc]), ih hrest (c :: acc)]
    simp

theorem pySplitChar_no_sep (s : String) (sep : Char) (h : pyContainsChar s sep = false) :
    pySplitChar s sep = [s] := by
  have hmem : sep ∉ s.toList := by
    intro hm
    unfold pyContainsChar at h
    simp at h
    exact h hm
  unfold pySplitChar
  rw [pySplitCharAux_no_sep sep s.toList hmem []]
  simp only [List.reverse_nil, List.nil_append, List.map]
  cases s with
  | mk data => rfl

/-- Every failure of `validate_pool_name` is a `ValidationError`. -/
theorem validate_pool_name_shape (n : String) :
    validate_pool_name n = .ok () ∨ ∃ m, validate_pool_name n = .error (.validationError m) := by
  unfold validate_pool_name
  repeat' split
  all_goals simp

/-- Every failure of `validate_native_property_name` is a `ValidationError`. -/
theorem validate_native_property_name_shape (n : String) :
    validate_native_property_name n = .ok () ∨
      ∃ m, validate_native_property_name n = .error (.validationError m) := by
  unfold validate_native_property_name
  repeat' split
  all_goals simp

/-- Every failure of `validate_metadata_property_name` is a `ValidationError`. -/
theorem validate_metadata_property_name_shape (n : String) :
    validate_metadata_property_name n = .ok () ∨
      ∃ m, validate_metadata_property_name n = .error (.validationError m) := by
  unfold validate_metadata_property_name
  repeat' split
  all_goals simp

/-- Every failure of `validate_property_value` is a `ValidationError`. -/
theorem validate_property_value_shape (v : String) :
    validate_property_value v = .ok () ∨
      ∃ m, validate_property_value v = .error (.validationError m) := by
  unfold validate_property_value
  split
  all_goals simp

/-- Every failure of `validate_props` is a `ValidationError`. -/
theorem validate_props_shape (ps : List (String × String)) :
    validate_props ps = .ok () ∨ ∃ m, validate_props ps = .error (.validationError m) := by
  induction ps with
  | nil => left; rfl
  | cons p rest ih =>
    obtain ⟨k, v⟩ := p
    unfold validate_props
    rcases validate_native_property_name_shape k with hk | ⟨m, hk⟩
    · rw [hk]
      rcases validate_property_value_shape v with hv | ⟨m, hv⟩
      · rw [hv]; exact ih
      · rw [hv]; right; exact ⟨m, rfl⟩
    · rw [hk]; right; exact ⟨m, rfl⟩

/-- Every failure of `build_metadata_props` is a `ValidationError`. -/
theorem build_metadata_props_shape (mdns : Option String) (ms acc : List (String × String)) :
    (∃ r, build_metadata_props mdns ms acc = .ok r) ∨
      ∃ m, build_metadata_props mdns ms acc = .error (.validationError m) := by
  induction ms generalizing acc with
  | nil => left; exact ⟨acc, rfl⟩
  | cons p rest ih =>
    obtain ⟨k, val⟩ := p
    unfold build_metadata_props
    split
    · right; next e heq =>
      split at heq
      · split at heq
        · cases heq; exact ⟨_, rfl⟩
        · cases heq
      · cases heq
    · next mn heq =>
      rcases validate_metadata_property_name_shape mn with hm | ⟨m, hm⟩
      · rw [hm]
        rcases validate_property_value_shape val with hv | ⟨m, hv⟩
        · rw [hv]; exact ih _
        · rw [hv]; right; exact ⟨m, rfl⟩
      · rw [hm]; right; exact ⟨m, rfl⟩

/-- `ZFS.get_property` never mutates the instance configuration. -/
theorem get_property_state (st : ZFSState) (be : Backend) (d k : String) (m : Bool)
    (o : Option String) : (ZFS.get_property st be d k m o).1 = st := by
  unfold ZFS.get_property
  repeat' split
  all_goals rfl

/-- `ZFS.set_property` never mutates the instance configuration. -/
theorem set_property_state (st : ZFSState) (be : Backend) (d k v : String) (m : Bool)
    (o : Option String) : (ZFS.set_property st be d k v m o).1 = st := by
  unfold ZFS.set_property
  repeat' split
  all_goals rfl

/-- `ZFS.get_properties` never mutates the instance configuration. -/
theorem get_properties_state (st : ZFSState) (be : Backend) (d : String) (im : Bool) :
    (ZFS.get_properties st be d im).1 = st := by
  unfold ZFS.get_properties
  repeat' split
  all_goals rfl

/-- `ZFS.dataset_exists` never mutates the instance configuration. -/
theorem dataset_exists_state (st : ZFSState) (be : Backend) (n : String) :
    (ZFS.dataset_exists st be n).1 = st := by
  unfold ZFS.dataset_exists
  rcases hg : ZFS.get_property st be n "type" false none with ⟨st1, r⟩
  have h1 : st1 = st := by
    have h := get_property_state st be n "type" false none
    rw [hg] at h
    exact h
  subst h1
  rcases r with e | p
  · rcases e <;> rfl
  · rfl

/-- Probing an empty dataset name fails validation before any backend call. -/
theorem dataset_exists_empty (st : ZFSState) (be : Backend) :
    ZFS.dataset_exists st be "" = (st, .error (.validationError "too short")) := rfl

/-- `ZFS.set_mountpoint` never mutates the instance configuration. -/
theorem set_mountpoint_state (st : ZFSState) (be : Backend) (f mp : String)
    (ma : Option PEHelperMode) : (ZFS.set_mountpoint st be f mp ma).1 = st := by
  unfold ZFS.set_mountpoint
  split
  · rfl
  split
  · rfl
  rcases hg : ZFS.get_property st be f "type" false none with ⟨st1, r⟩
  have h1 : st1 = st := by
    have h := get_property_state st be f "type" false none
    rw [hg] at h
    exact h
  subst h1
  rcases r with e | ds_type
  · rfl
  · rfl

theorem create_dataset_volume_tail_state (st : ZFSState) (cbe : CreateBackend)
    (name : String) (properties : Option (List (String × String)))
    (mprops : List (String × String)) (sparse : Bool) (size : Option Int)
    (recursive : Bool) :
    (ZFS.create_dataset_volume_tail st cbe name properties mprops sparse size recursive).1 = st := by
  unfold ZFS.create_dataset_volume_tail
  dsimp only []
  repeat' split
  all_goals rfl

theorem create_dataset_fsvol_state (st : ZFSState) (be : Backend) (cbe : CreateBackend)
    (name : String) (dt : DatasetType) (properties : Option (List (String × String)))
    (mprops : List (String × String)) (sparse : Bool) (size : Option Int)
    (recursive : Bool) :
    (ZFS.create_dataset_fsvol st be cbe name dt properties mprops sparse size recursive).1 = st := by
  unfold ZFS.create_dataset_fsvol
  split
  · rfl
  dsimp only []
  split
  · next st2 e heq =>
    have h := dataset_exists_state st be (pyJoin "/" (pySplitChar name '/').dropLast)
    rw [heq] at h
    exact h
  · next st2 pe heq =>
    have h2 : st2 = st := by
      have h := dataset_exists_state st be (pyJoin "/" (pySplitChar name '/').dropLast)
      rw [heq] at h
      exact h
    split
    · exact h2
    split
    · exact (create_dataset_volume_tail_state st2 cbe name properties mprops sparse size
        recursive).trans h2
    · exact h2

theorem create_dataset_snapshot_tail_state (st : ZFSState) (be : Backend)
    (cbe : CreateBackend) (name : String) (properties : Option (List (String × String)))
    (mprops : List (String × String)) :
    (ZFS.create_dataset_snapshot_tail st be cbe name properties mprops).1 = st := by
  unfold ZFS.create_dataset_snapshot_tail
  dsimp only []
  split
  · rfl
  split
  · next ds_name _ss_name heq =>
    split
    · next st2 e heq2 =>
      have h := dataset_exists_state st be ds_name
      rw [heq2] at h
      exact h
    · next st2 heq2 =>
      have h := dataset_exists_state st be ds_name
      rw [heq2] at h
      exact h
    · next st2 heq2 =>
      have h := dataset_exists_state st be ds_name
      rw [heq2] at h
      exact h
  · rfl

/-- `ZFS.create_dataset` never mutates the instance configuration. -/
theorem create_dataset_state (st : ZFSState) (be : Backend) (cbe : CreateBackend)
    (name : String) (dt : DatasetType) (props mprops : Option (List (String × String)))
    (sparse : Bool) (size : Option Int) (recursive : Bool) :
    (ZFS.create_dataset st be cbe name dt props mprops sparse size recursive).1 = st := by
  unfold ZFS.create_dataset
  split
  · rfl
  split
  · rfl
  split
  · next st1 e heq =>
    have h := dataset_exists_state st be name
    rw [heq] at h
    exact h
  · next st1 heq =>
    have h := dataset_exists_state st be name
    rw [heq] at h
    exact h
  · next st1 heq =>
    have h1 : st1 = st := by
      have h := dataset_exists_state st be name
      rw [heq] at h
      exact h
    split
    · exact h1
    split
    · exact h1
    split
    · exact h1
    dsimp only []
    split
    · exact (create_dataset_fsvol_state st1 be cbe name dt props _ _ _ recursive).trans h1
    split
    · exact (create_dataset_snapshot_tail_state st1 be cbe name props _).trans h1
    · exact h1

/-- The proactive-unmount preamble never mutates the instance configuration. -/
theorem destroy_proactive_umount_state (st : ZFSState) (be : Backend) (dataset : String) :
    (ZFSCli._destroy_dataset_proactive_umount st be dataset).1 = st := by
  unfold ZFSCli._destroy_dataset_proactive_umount
  split
  · split
    · next st1 e heq =>
      have h := get_property_state st be dataset "mounted" false none
      rw [heq] at h
      exact h
    · next st1 tp heq =>
      have h1 : st1 = st := by
        have h := get_property_state st be dataset "mounted" false none
        rw [heq] at h
        exact h
      split
      · exact h1
      · exact h1
  · rfl

/-- `ZFSCli._destroy_dataset` never mutates the instance configuration. -/
theorem cli_destroy_dataset_state (fuel : Nat) :
    ∀ (i : Nat) (st : ZFSState) (be : Backend) (runs : Nat → CompletedProcess)
      (dataset : String) (recursive force_umount : Bool),
      (ZFSCli._destroy_dataset fuel st be runs i dataset recursive force_umount).1 = st := by
  induction fuel with
  | zero => intro i st be runs dataset r f; rfl
  | succ n ih =>
    intro i st be runs dataset r f
    unfold ZFSCli._destroy_dataset
    split
    · next st1 e heq =>
      have h := destroy_proactive_umount_state st be dataset
      rw [heq] at h
      exact h
    · next st1 heq =>
      have h1 : st1 = st := by
        have h := destroy_proactive_umount_state st be dataset
        rw [heq] at h
        exact h
      dsimp only []
      repeat' split
      all_goals first
        | exact h1
        | exact (ih (i + 1) st1 be runs dataset r f).trans h1

/-- `ZFS.destroy_dataset` never mutates the instance configuration. -/
theorem destroy_dataset_state (fuel : Nat) (st : ZFSState) (be : Backend)
    (runs : Nat → CompletedProcess) (dataset : String) (recursive force_umount : Bool) :
    (ZFS.destroy_dataset fuel st be runs dataset recursive force_umount).1 = st := by
  unfold ZFS.destroy_dataset
  split
  · rfl
  split
  · rfl
  split
  · next st1 e heq =>
    have h := dataset_exists_state st be dataset
    rw [heq] at h
    exact h
  · next st1 heq =>
    have h := dataset_exists_state st be dataset
    rw [heq] at h
    exact h
  · next st1 heq =>
    have h1 : st1 = st := by
      have h := dataset_exists_state st be dataset
      rw [heq] at h
      exact h
    exact (cli_destroy_dataset_state fuel 0 st1 be runs dataset recursive force_umount).trans h1

/-! ### Concrete fixtures used by the claim theorems and witnesses -/

/-- A PE helper whose capability calls all succeed. -/
def helperOk : Helper :=
  { zfs_set_mountpoint := fun _ _ => .ok ()
    zfs_mount := fun _ => .ok ()
    zfs_umount := fun _ => .ok ()
    zfs_destroy_dataset := fun _ _ _ => .ok () }

/-- Instance configuration: helper set, stored mode `USE_IF_REQUIRED`. -/
def stHelperIfReq : ZFSState :=
  { metadata_namespace := none, pe_helper := some helperOk,
    pe_helper_mode_stored := .useIfRequired }

/-- Instance configuration: no helper, stored mode `DO_NOT_USE`. -/
def stNoHelper : ZFSState :=
  { metadata_namespace := none, pe_helper := none, pe_helper_mode_stored := .doNotUse }

/-- A backend whose `_get_property` reports the `type` property as the
`Property` named tuple with value `"filesystem"` and whose
`_set_property` raises `PermissionError` (an unprivileged caller). -/
def beTypeFilesystemSetPermErr : Backend :=
  { getProperty := fun _ key _ =>
      if key == "type" then
        .ok { key := "type", value := "filesystem", source := .local, nspace := none }
      else .error (.propertyNotFound "Property was not found")
    setProperty := fun _ _ _ _ => .error (.permissionError "permission denied")
    getProperties := fun _ _ => .ok [] }

/-- A backend whose `_get_property` raises `DatasetNotFound`. -/
def beDatasetNotFound : Backend :=
  { getProperty := fun _ _ _ => .error (.datasetNotFound "Dataset not found")
    setProperty := fun _ _ _ _ => .error (.datasetNotFound "Dataset not found")
    getProperties := fun _ _ => .error (.datasetNotFound "Dataset not found") }

/-- A backend whose `_get_property` raises `PermissionError`. -/
def bePermissionError : Backend :=
  { getProperty := fun _ _ _ => .error (.permissionError "permission denied")
    setProperty := fun _ _ _ _ => .error (.permissionError "permission denied")
    getProperties := fun _ _ => .error (.permissionError "permission denied") }

/-- A backend whose `_get_property` raises `PoolNotFound`. -/
def bePoolNotFound : Backend :=
  { getProperty := fun _ _ _ => .error (.poolNotFound "Pool not found")
    setProperty := fun _ _ _ _ => .error (.poolNotFound "Pool not found")
    getProperties := fun _ _ => .error (.poolNotFound "Pool not found") }

/-- A backend whose `_get_property` raises `PropertyNotFound`. -/
def bePropertyNotFound : Backend :=
  { getProperty := fun _ _ _ => .error (.propertyNotFound "Property was not found")
    setProperty := fun _ _ _ _ => .error (.propertyNotFound "Property was not found")
    getProperties := fun _ _ => .error (.propertyNotFound "Property was not found") }

/-- A backend whose `_get_property` succeeds. -/
def beOkProperty : Backend :=
  { getProperty := fun _ key _ =>
      .ok { key := key, value := "fileset", source := .local, nspace := none }
    setProperty := fun _ _ _ _ => .ok ()
    getProperties := fun _ _ => .ok [] }

/-- A creation backend whose methods are never expected to be reached. -/
def cbeUnused : CreateBackend :=
  { createFileset := fun _ _ _ _ => .error (.exception "unused")
    createVolume := fun _ _ _ _ _ _ => .error (.exception "unused")
    createSnapshot := fun _ _ _ _ => .error (.exception "unused") }

/-! ### Claim theorems -/

/-- C1 (code evidence): under exactly the claimed hypotheses — the
fileset path `tank/data` and mountpoint `/mnt/data` pass validation, the
backend reports the dataset `type` property as `"filesystem"`, a PE
helper is configured with effective mode `USE_IF_REQUIRED`, and the
unprivileged `set_property` raises `PermissionError` — `set_mountpoint`
does **not** call the helper and does **not** return: it raises
`ValidationError`, because the source compares the `Property` named tuple
returned by `get_property` directly against the string `'filesystem'`,
which never holds.  This refutes the claim that the helper is invoked
exactly once and the call returns. -/
theorem C1_set_mountpoint_never_reaches_helper :
    (ZFS.set_mountpoint stHelperIfReq beTypeFilesystemSetPermErr "tank/data" "/mnt/data"
        none).2 =
      (.error (.validationError "Dataset is not a filesystem and cannot have its mountpoint set"),
       []) := rfl

/-- C2 (code evidence): with no helper configured (effective mode
`DO_NOT_USE`), a validated fileset whose `type` property reads
`"filesystem"` and an unprivileged `set_property` that raises
`PermissionError`, `set_mountpoint` does not re-raise the
`PermissionError`: it raises `ValidationError` from the
`Property`-vs-string type check; and even with that check bypassed, the
no-helper branch of the source only logs and returns normally, swallowing
the permission failure. -/
theorem C2_set_mountpoint_does_not_reraise :
    (ZFS.set_mountpoint stNoHelper beTypeFilesystemSetPermErr "tank/data" "/mnt/data"
        none).2 =
      (.error (.validationError "Dataset is not a filesystem and cannot have its mountpoint set"),
       []) := rfl

/-- C3: for every `ZFS` and every `ZPool` instance state reached by any
sequence of setter calls, whenever the `pe_helper` attribute is `None`,
reading the `pe_helper_mode` property returns `DO_NOT_USE`, whatever mode
value is stored. -/
theorem C3_pe_helper_mode_gated_by_helper (st : ZFSState) (ops : List SetterOp)
    (stp : ZPoolState) (pops : List ZPoolSetterOp) :
    ((ZFS.applySetters st ops).pe_helper = none →
      ZFS.pe_helper_mode (ZFS.applySetters st ops) = .doNotUse) ∧
    ((ZPool.applySetters stp pops).pe_helper = none →
      ZPool.pe_helper_mode (ZPool.applySetters stp pops) = .doNotUse) := by
  constructor
  · intro h
    unfold ZFS.pe_helper_mode
    rw [h]
  · intro h
    unfold ZPool.pe_helper_mode
    rw [h]

/-- Witness for C3 at a concrete state that stores `USE_PROACTIVE` while
no helper is configured, after a concrete setter sequence. -/
theorem C3_witness :
    ZFS.pe_helper_mode
        (ZFS.applySetters stNoHelper [.setPeHelperMode .useProactive]) = .doNotUse ∧
    ZPool.pe_helper_mode
        (ZPool.applySetters
          { metadata_namespace := none, pe_helper := none, pe_helper_mode_stored := .doNotUse }
          [.setPeHelperMode .useIfRequired]) = .doNotUse :=
  ⟨(C3_pe_helper_mode_gated_by_helper stNoHelper [.setPeHelperMode .useProactive]
      { metadata_namespace := none, pe_helper := none, pe_helper_mode_stored := .doNotUse }
      [.setPeHelperMode .useIfRequired]).1 rfl,
   (C3_pe_helper_mode_gated_by_helper stNoHelper [.setPeHelperMode .useProactive]
      { metadata_namespace := none, pe_helper := none, pe_helper_mode_stored := .doNotUse }
      [.setPeHelperMode .useIfRequired]).2 rfl⟩

/-- C4: `handle_command_error` classifies a completed process by
substring matching on stderr in a fixed priority order: the
dataset-not-found phrase wins first and raises `DatasetNotFound`; else
the invalid-property phrase raises `PropertyNotFound`; else
`"permission denied"` or the only-mountable-by-root phrase raises
`PermissionError` carrying stderr; otherwise a generic execution failure
carrying the full diagnostic text is raised. -/
theorem C4_handle_command_error_priority (proc : CompletedProcess) (dataset : Option String) :
    (containsSubstr proc.stderr "dataset does not exist" = true →
      handle_command_error proc dataset = .datasetNotFound
        (match dataset with
         | some ds => "Dataset \"" ++ ds ++ "\" not found"
         | none => "Dataset not found")) ∧
    (containsSubstr proc.stderr "dataset does not exist" = false →
     containsSubstr proc.stderr "bad property list: invalid property" = true →
      handle_command_error proc dataset = .propertyNotFound
        (match dataset with
         | some ds => "invalid property on dataset " ++ ds
         | none => "invalid property")) ∧
    (containsSubstr proc.stderr "dataset does not exist" = false →
     containsSubstr proc.stderr "bad property list: invalid property" = false →
     (containsSubstr proc.stderr "permission denied" = true ∨
      containsSubstr proc.stderr
        "filesystem successfully created, but it may only be mounted by root" = true) →
      handle_command_error proc dataset = .permissionError proc.stderr) ∧
    (containsSubstr proc.stderr "dataset does not exist" = false →
     containsSubstr proc.stderr "bad property list: invalid property" = false →
     containsSubstr proc.stderr "permission denied" = false →
     containsSubstr proc.stderr
       "filesystem successfully created, but it may only be mounted by root" = false →
      handle_command_error proc dataset =
        .exception ("Command execution \"" ++ pyJoin " " proc.args ++ "\" failed: "
          ++ proc.stderr)) := by
  refine ⟨?_, ?_, ?_, ?_⟩
  · intro h1
    simp only [handle_command_error, h1, if_true]
    cases dataset <;> rfl
  · intro h1 h2
    simp only [handle_command_error, h1, h2]
    cases dataset <;> rfl
  · intro h1 h2 h3
    rcases h3 with h3 | h3
    · simp [handle_command_error, h1, h2, h3]
    · by_cases hp : containsSubstr proc.stderr "permission denied" = true
      · simp [handle_command_error, h1, h2, hp]
      · simp [handle_command_error, h1, h2, hp, h3]
  · intro h1 h2 h3 h4
    simp [handle_command_error, h1, h2, h3, h4]

/-- Witness for C4: on a stderr containing both the invalid-property
phrase and `"permission denied"`, the earlier branch (PropertyNotFound)
wins. -/
theorem C4_witness :
    handle_command_error
        { args := ["zfs", "get"], returncode := 1, stdout := "",
          stderr := "bad property list: invalid property, permission denied" } none
      = .propertyNotFound "invalid property" :=
  (C4_handle_command_error_priority
      { args := ["zfs", "get"], returncode := 1, stdout := "",
        stderr := "bad property list: invalid property, permission denied" } none).2.1
    (by decide) (by decide)

/-- The failure test shared by every external-command site:
`proc.returncode != 0 or len(proc.stderr) > 0` is false exactly when the
exit code is zero and stderr is empty. -/
theorem run_check_ok_iff (rc : Int) (err : String) (z : ZError) :
    ((if !(rc == 0) || err.length > 0 then (Except.error z : Except ZError Unit)
      else .ok ()) = .ok ()) ↔ (rc = 0 ∧ err = "") := by
  by_cases h1 : rc = 0
  · by_cases h2 : err = ""
    · subst h1
      subst h2
      simp
    · have hp : 0 < err.length := (string_length_pos err).2 h2
      simp [h1, h2, hp]
  · simp [h1]

/-- C5: every external command invocation (the CLI backend `_set_property`
and both PE-helper `_execute_cmd` strategies) is treated as failed if and
only if the exit code is non-zero or the captured stderr is non-empty; in
particular exit code 0 with non-empty stderr raises rather than
succeeding. -/
theorem C5_failure_iff_code_or_stderr (dataset key value : String) (is_metadata : Bool)
    (exe : String) (cmd : List String) (p1 p2 p3 : CompletedProcess)
    (hlen : 2 ≤ cmd.length) :
    (ZFSCli._set_property dataset key value is_metadata p1 = .ok () ↔
      (p1.returncode = 0 ∧ p1.stderr = "")) ∧
    (SudoPEHelper._execute_cmd exe cmd p2 = .ok () ↔
      (p2.returncode = 0 ∧ p2.stderr = "")) ∧
    (ExternalPEHelper._execute_cmd p3 = .ok () ↔
      (p3.returncode = 0 ∧ p3.stderr = "")) := by
  refine ⟨?_, ?_, ?_⟩
  · exact run_check_ok_iff p1.returncode p1.stderr (handle_command_error p1 (some dataset))
  · have hg : ¬(([exe, "-n"] ++ cmd).length < 4) := by
      simp only [List.length_append, List.length_cons, List.length_nil]
      omega
    unfold SudoPEHelper._execute_cmd
    rw [if_neg hg]
    exact run_check_ok_iff p2.returncode p2.stderr _
  · exact run_check_ok_iff p3.returncode p3.stderr _

/-- Witness for C5: a clean run succeeds through all three sites, and a
run with exit code 0 but non-empty stderr is still rejected by the
external-helper strategy. -/
theorem C5_witness :
    ZFSCli._set_property "tank/a" "compression" "lz4" false
        { args := ["zfs"], returncode := 0, stdout := "", stderr := "" } = .ok () ∧
    SudoPEHelper._execute_cmd "sudo" ["zfs", "mount", "tank/a"]
        { args := ["sudo"], returncode := 0, stdout := "", stderr := "" } = .ok () ∧
    ¬(ExternalPEHelper._execute_cmd
        { args := ["pe"], returncode := 0, stdout := "", stderr := "oops" } = .ok ()) := by
  have h := C5_failure_iff_code_or_stderr "tank/a" "compression" "lz4" false "sudo"
    ["zfs", "mount", "tank/a"]
    { args := ["zfs"], returncode := 0, stdout := "", stderr := "" }
    { args := ["sudo"], returncode := 0, stdout := "", stderr := "" }
    { args := ["pe"], returncode := 0, stdout := "", stderr := "oops" } (by decide)
  refine ⟨h.1.mpr ⟨rfl, rfl⟩, h.2.1.mpr ⟨rfl, rfl⟩, fun hc => ?_⟩
  have := (h.2.2.mp hc).2
  exact absurd this (by decide)

/-- C6: `dataset_exists(name)` returns `False` when the underlying
`get_property(name, 'type')` raises `DatasetNotFound`, `PermissionError`
or `PoolNotFound`; returns `True` when it raises `PropertyNotFound`; and
returns `True` when it succeeds. -/
theorem C6_dataset_exists_outcomes (st : ZFSState) (be : Backend) (name : String) :
    (∀ m, (ZFS.get_property st be name "type" false none).2 = .error (.datasetNotFound m) →
      (ZFS.dataset_exists st be name).2 = .ok false) ∧
    (∀ m, (ZFS.get_property st be name "type" false none).2 = .error (.permissionError m) →
      (ZFS.dataset_exists st be name).2 = .ok false) ∧
    (∀ m, (ZFS.get_property st be name "type" false none).2 = .error (.poolNotFound m) →
      (ZFS.dataset_exists st be name).2 = .ok false) ∧
    (∀ m, (ZFS.get_property st be name "type" false none).2 = .error (.propertyNotFound m) →
      (ZFS.dataset_exists st be name).2 = .ok true) ∧
    (∀ p, (ZFS.get_property st be name "type" false none).2 = .ok p →
      (ZFS.dataset_exists st be name).2 = .ok true) := by
  unfold ZFS.dataset_exists
  rcases hg : ZFS.get_property st be name "type" false none with ⟨st1, r⟩
  refine ⟨?_, ?_, ?_, ?_, ?_⟩ <;> intro m hm <;> dsimp only [] at hm <;>
    subst hm <;> rfl

/-- Witness for C6: one concrete backend per outcome over the pool name
`tank`. -/
theorem C6_witness :
    (ZFS.dataset_exists stNoHelper beDatasetNotFound "tank").2 = .ok false ∧
    (ZFS.dataset_exists stNoHelper bePermissionError "tank").2 = .ok false ∧
    (ZFS.dataset_exists stNoHelper bePoolNotFound "tank").2 = .ok false ∧
    (ZFS.dataset_exists stNoHelper bePropertyNotFound "tank").2 = .ok true ∧
    (ZFS.dataset_exists stNoHelper beOkProperty "tank").2 = .ok true :=
  ⟨(C6_dataset_exists_outcomes stNoHelper beDatasetNotFound "tank").1 _ rfl,
   (C6_dataset_exists_outcomes stNoHelper bePermissionError "tank").2.1 _ rfl,
   (C6_dataset_exists_outcomes stNoHelper bePoolNotFound "tank").2.2.1 _ rfl,
   (C6_dataset_exists_outcomes stNoHelper bePropertyNotFound "tank").2.2.2.1 _ rfl,
   (C6_dataset_exists_outcomes stNoHelper beOkProperty "tank").2.2.2.2 _ rfl⟩

/-- C7 (code evidence): in `_get_properties` with `include_metadata=True`,
a row whose property name is `myns:mount` is reported with key `ount`,
not `mount`: the source strips with `prop_name.lstrip(f'{namespace}:')`,
which removes leading characters drawn from the character *set*
`{m,y,n,s,:}` rather than removing the `myns:` prefix, so the remainder
of the name is **not** preserved unchanged.  The namespace itself and the
suppression of metadata rows when `include_metadata=False`, as well as
the inclusion of colon-free rows with namespace `None`, behave as
claimed. -/
theorem C7_get_properties_lstrip_overstrips :
    ZFSCli._get_properties
        { args := ["zfs", "get", "-H", "-p", "all", "tank"], returncode := 0,
          stdout := "tank\tmyns:mount\tv\tlocal", stderr := "" } "tank" true
      = .ok [{ key := "ount", value := "v", source := .local, nspace := some "myns" }] ∧
    ZFSCli._get_properties
        { args := ["zfs", "get", "-H", "-p", "all", "tank"], returncode := 0,
          stdout := "tank\tmyns:mount\tv\tlocal\ntank\tcompression\tlz4\tdefault",
          stderr := "" } "tank" false
      = .ok [{ key := "compression", value := "lz4", source := .default, nspace := none }] :=
  ⟨rfl, rfl⟩

/-- For a name with no `/`, the FILESET/VOLUME continuation fails
validation (either on `@`/`#`, or on the empty parent path computed from
the slash-free name) before delegating. -/
theorem create_dataset_fsvol_toplevel (st1 : ZFSState) (be : Backend) (cbe : CreateBackend)
    (name : String) (dt : DatasetType) (props : Option (List (String × String)))
    (mprops : List (String × String)) (sparse : Bool) (size : Option Int) (recursive : Bool)
    (hslash : pyContainsChar name '/' = false) :
    ∃ m, ZFS.create_dataset_fsvol st1 be cbe name dt props mprops sparse size recursive =
      (st1, .error (.validationError m), []) := by
  unfold ZFS.create_dataset_fsvol
  cases hat : (pyContainsChar name '@' || pyContainsChar name '#') with
  | true =>
    refine ⟨"Volumes/Filesets cannot contain @ (snapshot) or # (bookmark)", ?_⟩
    simp [hat]
  | false =>
    refine ⟨"too short", ?_⟩
    simp only [hat, Bool.false_eq_true, if_false]
    rw [pySplitChar_no_sep name '/' hslash]
    rfl

/-- A name with no `/` and dataset type FILESET or VOLUME makes
`create_dataset` fail with a `ValidationError` and delegate nothing. -/
theorem create_dataset_toplevel_aux (st : ZFSState) (be : Backend) (cbe : CreateBackend)
    (name : String) (dt : DatasetType) (props mprops : Option (List (String × String)))
    (sparse : Bool) (size : Option Int) (recursive : Bool)
    (hslash : pyContainsChar name '/' = false)
    (hdt : dt = .fileset ∨ dt = .volume)
    (hexists : (ZFS.dataset_exists st be name).2 = .ok false) :
    ∃ m st', ZFS.create_dataset st be cbe name dt props mprops sparse size recursive =
      (st', .error (.validationError m), []) := by
  have hb : (dt == DatasetType.bookmark) = false := by
    rcases hdt with h | h <;> subst h <;> rfl
  have hfv : (dt == DatasetType.fileset || dt == DatasetType.volume) = true := by
    rcases hdt with h | h <;> subst h <;> rfl
  unfold ZFS.create_dataset
  simp only [hb, hslash, Bool.false_eq_true, if_false]
  rcases validate_pool_name_shape name with hok | ⟨m, herr⟩
  · rw [hok]
    rcases hde : ZFS.dataset_exists st be name with ⟨st1, r⟩
    rw [hde] at hexists
    dsimp only [] at hexists
    subst hexists
    simp only [pyBuiltinTypeInFilesetVolume, Bool.and_false, Bool.false_eq_true, if_false]
    have hpshape : (match props with
        | none => Except.ok ()
        | some ps => validate_props ps : Except ZError Unit) = .ok () ∨
        ∃ m, (match props with
        | none => Except.ok ()
        | some ps => validate_props ps : Except ZError Unit) = .error (.validationError m) := by
      rcases props with _ | ps
      · left; rfl
      · exact validate_props_shape ps
    rcases hpshape with hp | ⟨m, hp⟩
    · rw [hp]
      have hmshape : (∃ r, (match mprops with
          | none => Except.ok []
          | some ms => build_metadata_props st1.metadata_namespace ms [] :
          Except ZError (List (String × String))) = .ok r) ∨
          ∃ m2, (match mprops with
          | none => Except.ok []
          | some ms => build_metadata_props st1.metadata_namespace ms [] :
          Except ZError (List (String × String))) = .error (.validationError m2) := by
        rcases mprops with _ | ms
        · left; exact ⟨[], rfl⟩
        · exact build_metadata_props_shape st1.metadata_namespace ms []
      rcases hmshape with ⟨r, hm⟩ | ⟨m2, hm⟩
      · rw [hm]
        dsimp only []
        simp only [hfv, if_true]
        obtain ⟨m3, hm3⟩ := create_dataset_fsvol_toplevel st1 be cbe name dt props r
          (if !(dt == DatasetType.volume) && sparse then false else sparse)
          (if !(dt == DatasetType.volume) && intOptTruthy size then none else size)
          recursive hslash
        rw [hm3]
        exact ⟨m3, st1, rfl⟩
      · rw [hm]; exact ⟨m2, st1, rfl⟩
    · rw [hp]; exact ⟨m, st1, rfl⟩
  · rw [herr]; exact ⟨m, st, rfl⟩

/-- C8: for every name containing no `/` that does not denote an existing
dataset, `create_dataset` with type FILESET or VOLUME raises
`ValidationError` and never delegates a create operation to the backend. -/
theorem C8_toplevel_create_rejected (st : ZFSState) (be : Backend) (cbe : CreateBackend)
    (name : String) (dt : DatasetType) (props mprops : Option (List (String × String)))
    (sparse : Bool) (size : Option Int) (recursive : Bool)
    (hslash : pyContainsChar name '/' = false)
    (hdt : dt = .fileset ∨ dt = .volume)
    (hexists : (ZFS.dataset_exists st be name).2 = .ok false) :
    (∃ m, (ZFS.create_dataset st be cbe name dt props mprops sparse size recursive).2.1 =
      .error (.validationError m)) ∧
    (ZFS.create_dataset st be cbe name dt props mprops sparse size recursive).2.2 = [] := by
  obtain ⟨m, st', hm⟩ := create_dataset_toplevel_aux st be cbe name dt props mprops sparse
    size recursive hslash hdt hexists
  exact ⟨⟨m, by rw [hm]⟩, by rw [hm]⟩

/-- Witness for C8 at the pool-level name `tank`, reported as not existing
by the backend. -/
theorem C8_witness :
    pyContainsChar "tank" '/' = false ∧
    (ZFS.dataset_exists stNoHelper beDatasetNotFound "tank").2 = .ok false ∧
    (ZFS.create_dataset stNoHelper beDatasetNotFound cbeUnused "tank" .fileset none none
        false none false).2.2 = [] :=
  ⟨rfl, rfl,
   (C8_toplevel_create_rejected stNoHelper beDatasetNotFound cbeUnused "tank" .fileset
      none none false none false rfl (Or.inl rfl) rfl).2⟩

/-- C9: parsing a valid dataset path whose last segment contains `@`
yields a `Dataset` preserving the input as `full_path`, with `pool` the
first `/`-separated token, `name` the last token, `parent` the joined
prefix, and type SNAPSHOT — independently of the `/dev/zvol` probe; in
particular `pool/a/b@snap` parses to exactly the claimed fields. -/
theorem C9_from_string_snapshot (value : String) (z z2 : String → Bool)
    (hslash : pyContainsChar value '/' = true)
    (hval : validate_dataset_path value = .ok ())
    (hat : pyContainsChar ((pySplitChar value '/').getLastD "") '@' = true) :
    Dataset.from_string z value = .ok
      { name := (pySplitChar value '/').getLastD "", full_path := value,
        pool := (pySplitChar value '/').headD "",
        parent := some (pyJoin "/" (pySplitChar value '/').dropLast), type := .snapshot } ∧
    Dataset.from_string z value = Dataset.from_string z2 value ∧
    Dataset.from_string z "pool/a/b@snap" = .ok
      { name := "b@snap", full_path := "pool/a/b@snap", pool := "pool",
        parent := some "pool/a", type := .snapshot } := by
  have key : ∀ w : String → Bool, Dataset.from_string w value = .ok
      { name := (pySplitChar value '/').getLastD "", full_path := value,
        pool := (pySplitChar value '/').headD "",
        parent := some (pyJoin "/" (pySplitChar value '/').dropLast), type := .snapshot } := by
    intro w
    unfold Dataset.from_string
    simp only [hslash, if_true, hval, hat]
  exact ⟨key z, (key z).trans (key z2).symm, rfl⟩

/-- Witness for C9 at `pool/a/b@snap`, with two different zvol probes. -/
theorem C9_witness :
    Dataset.from_string (fun _ => false) "pool/a/b@snap" = .ok
      { name := "b@snap", full_path := "pool/a/b@snap", pool := "pool",
        parent := some "pool/a", type := .snapshot } ∧
    Dataset.from_string (fun _ => false) "pool/a/b@snap" =
      Dataset.from_string (fun _ => true) "pool/a/b@snap" := by
  have h := C9_from_string_snapshot "pool/a/b@snap" (fun _ => false) (fun _ => true)
    rfl rfl rfl
  exact ⟨h.2.2, h.2.1⟩

/-- C10: the property and dataset operations (`get_property`,
`set_property`, `get_properties`, `set_mountpoint`, `create_dataset`,
`destroy_dataset`) leave the instance configuration — the
`metadata_namespace`, `pe_helper` and `pe_helper_mode` attributes that
make up `ZFSState` — unchanged, whether they return normally or raise;
only the explicit setters modify it. -/
theorem C10_operations_preserve_config (st : ZFSState) (be : Backend) (cbe : CreateBackend)
    (runs : Nat → CompletedProcess) (fuel : Nat)
    (dataset key value fileset mountpoint name : String)
    (metadata include_metadata sparse recursive force_umount : Bool)
    (ons : Option String) (modeArg : Option PEHelperMode) (dt : DatasetType)
    (props mprops : Option (List (String × String))) (size : Option Int) :
    (ZFS.get_property st be dataset key metadata ons).1 = st ∧
    (ZFS.set_property st be dataset key value metadata ons).1 = st ∧
    (ZFS.get_properties st be dataset include_metadata).1 = st ∧
    (ZFS.set_mountpoint st be fileset mountpoint modeArg).1 = st ∧
    (ZFS.create_dataset st be cbe name dt props mprops sparse size recursive).1 = st ∧
    (ZFS.destroy_dataset fuel st be runs dataset recursive force_umount).1 = st :=
  ⟨get_property_state st be dataset key metadata ons,
   set_property_state st be dataset key value metadata ons,
   get_properties_state st be dataset include_metadata,
   set_mountpoint_state st be fileset mountpoint modeArg,
   create_dataset_state st be cbe name dt props mprops sparse size recursive,
   destroy_dataset_state fuel st be runs dataset recursive force_umount⟩

end SimpleZFS
